import Mathlib

/-!
Shallow embedding of the summarization app (src/app.py) and proofs about it.

Text is modelled as `List Char` (a Python `str` is a sequence of code
points), audio bytes as `List Nat`, Python `int` as `ℤ`, and Python float
division results as `ℚ`.  External collaborators (the transformers
summarization pipeline, gTTS) are opaque function parameters; a call that
can raise is modelled as returning `Except`.
-/

namespace DocSummarizer

/-- Python's `str.strip()` / `str.split()` whitespace characters (ASCII part). -/
def pySpace (c : Char) : Bool :=
  c = ' ' || c = '\t' || c = '\n' || c = '\r' || c = '\x0b' || c = '\x0c'

/-- Python `str.strip()`: drop leading and trailing whitespace. -/
def pyStrip (s : List Char) : List Char :=
  ((s.dropWhile pySpace).reverse.dropWhile pySpace).reverse

/-- Python `str.split()` with no separator: the maximal non-whitespace runs. -/
def pyWords (s : List Char) : List (List Char) :=
  (List.splitOnP pySpace s).filter (fun w => !w.isEmpty)

/-- `len(text.split())`, the whitespace-token count used by the stats block. -/
def wordCount (s : List Char) : Nat :=
  (pyWords s).length

/-- Lines 203-208 of app.py: text over 1024 characters is cut to its first
1024 characters before generation; shorter text is passed as is. -/
def processed_text (input_text : List Char) : List Char :=
  if input_text.length > 1024 then input_text.take 1024 else input_text

/-- The chunk sequence the generation stage receives.  This variant never
splits: it produces exactly one (possibly truncated) chunk. -/
def chunks (input_text : List Char) : List (List Char) :=
  [processed_text input_text]

/-- Line 200 of app.py: `if input_text and len(input_text.strip()) > 50`. -/
def generationAttempted (input_text : List Char) : Bool :=
  !input_text.isEmpty && decide (50 < (pyStrip input_text).length)

/-- Lines 138-141 of app.py: `if min_length >= max_length` show a warning and
set `min_length = max_length - 10`.  Result: (repaired pair, warning shown). -/
def enforceLengths (min_length max_length : ℤ) : (ℤ × ℤ) × Bool :=
  if min_length ≥ max_length then ((max_length - 10, max_length), true)
  else ((min_length, max_length), false)

/-- The argument record of the `summarizer(...)` call at lines 211-216 of
app.py. -/
structure GenerationCall where
  text : List Char
  max_length : ℤ
  min_length : ℤ
  do_sample : Bool
deriving DecidableEq

/-- Lines 211-216 of app.py: the summarization pipeline is called on the
(possibly truncated) text with the slider bounds and `do_sample=False`. -/
def summarizerCall (input_text : List Char) (max_length min_length : ℤ) : GenerationCall :=
  { text := processed_text input_text
    max_length := max_length
    min_length := min_length
    do_sample := false }

/-- Modelled from the spec: the external transformers summarization pipeline
(not part of this repository).  Its output may depend on a random draw only
when sampling is requested; with `do_sample = false` decoding is
deterministic, a function of the call arguments alone. -/
def runPipeline (decode : GenerationCall → List Char)
    (sample : GenerationCall → Nat → List Char)
    (call : GenerationCall) (draw : Nat) : List Char :=
  if call.do_sample then sample call draw else decode call

/-- The session fields the generate-button handler touches
(`st.session_state.summary`, `st.session_state.audio_bytes`). -/
structure SessionState where
  summary : Option (List Char)
  audio_bytes : Option (List Nat)
deriving DecidableEq

/-- What the handler surfaces to the user. -/
inductive ClickOutcome
  | warnShort
  | generated
  | errorMsg (e : List Char)
deriving DecidableEq

/-- Lines 95-105 of app.py: `text_to_speech` wraps the gTTS call in
try/except; a synthesis error is caught and turned into `None`.  `tts` is
the external gTTS collaborator (text, language) applied as an opaque,
possibly-raising function. -/
def text_to_speech (tts : List Char → List Char → Except (List Char) (List Nat))
    (text lang : List Char) : Option (List Nat) :=
  match tts text lang with
  | .ok b => some b
  | .error _ => none

/-- Lines 199-232 of app.py, the generate-button handler:
if the guard `input_text and len(input_text.strip()) > 50` holds, call the
summarizer inside try/except; on success store the summary in the session,
then run `text_to_speech` and store the audio only if it is truthy
(`if audio_bytes:` — None and empty bytes both skip the store); a summarizer
exception is caught and shown as an error with the session untouched;
otherwise show the short-input warning. -/
def generateClick (st : SessionState)
    (summarizer : GenerationCall → Except (List Char) (List Char))
    (tts : List Char → List Char → Except (List Char) (List Nat))
    (input_text : List Char) (max_length min_length : ℤ) (audio_lang : List Char) :
    SessionState × ClickOutcome :=
  if generationAttempted input_text then
    match summarizer (summarizerCall input_text max_length min_length) with
    | .error e => (st, .errorMsg e)
    | .ok summary =>
      let st1 : SessionState := { st with summary := some summary }
      let st2 : SessionState :=
        match text_to_speech tts summary audio_lang with
        | some b => if b.isEmpty then st1 else { st1 with audio_bytes := some b }
        | none => st1
      (st2, .generated)
  else (st, .warnShort)

/-- What the statistics block at lines 237-256 of app.py does. -/
inductive StatsOutcome
  | notShown
  | skipped
  | zeroDivision
  | stats (original_words summary_words : Nat) (compression : ℚ)
deriving DecidableEq

/-- Lines 237-256 of app.py: the output column shows statistics only when
`st.session_state.summary` is truthy and `input_text` is truthy; it then
computes the two whitespace word counts and
`((original_words - summary_words) / original_words) * 100`, which raises
`ZeroDivisionError` when `original_words == 0` (a non-empty, whitespace-only
`input_text`). -/
def statsBlock (sessionSummary : Option (List Char)) (input_text : List Char) : StatsOutcome :=
  match sessionSummary with
  | none => .notShown
  | some summary =>
    if summary.isEmpty then .notShown
    else if input_text.isEmpty then .skipped
    else
      let original_words := wordCount input_text
      let summary_words := wordCount summary
      if original_words = 0 then .zeroDivision
      else .stats original_words summary_words
        (((original_words : ℚ) - (summary_words : ℚ)) / (original_words : ℚ) * 100)

/-- Helper: the empty input strips to the empty list. -/
theorem pyStrip_nil : pyStrip [] = [] := rfl

/-- Helper: `generationAttempted` holds exactly when the stripped length
exceeds 50 (the `input_text and` conjunct is subsumed: an empty input strips
to length 0). -/
theorem generationAttempted_iff (input_text : List Char) :
    generationAttempted input_text = true ↔ 50 < (pyStrip input_text).length := by
  cases input_text with
  | nil => simp [generationAttempted, pyStrip]
  | cons a l => simp [generationAttempted]

/-- C5: lines 138-141 of app.py return the pair unchanged with no warning
when min_length < max_length, otherwise return (max_length - 10, max_length)
and flag a warning; the result always satisfies min_length < max_length, and
re-applying enforcement to the enforced pair returns it unchanged with no
warning (idempotent, never fatal). -/
theorem C5_enforce_valid_and_idempotent (min_length max_length : ℤ) :
    (min_length < max_length →
      enforceLengths min_length max_length = ((min_length, max_length), false)) ∧
    (max_length ≤ min_length →
      enforceLengths min_length max_length = ((max_length - 10, max_length), true)) ∧
    (enforceLengths min_length max_length).1.1
      < (enforceLengths min_length max_length).1.2 ∧
    enforceLengths (enforceLengths min_length max_length).1.1
        (enforceLengths min_length max_length).1.2
      = ((enforceLengths min_length max_length).1, false) := by
  by_cases h : min_length ≥ max_length
  · rw [enforceLengths, if_pos h]
    refine ⟨fun hlt => absurd hlt (by omega), fun _ => rfl, ?_, ?_⟩
    · show max_length - 10 < max_length
      omega
    · show enforceLengths (max_length - 10) max_length = ((max_length - 10, max_length), false)
      rw [enforceLengths, if_neg (by omega : ¬ max_length - 10 ≥ max_length)]
  · rw [enforceLengths, if_neg h]
    refine ⟨fun _ => rfl, fun hle => absurd hle (by omega), ?_, ?_⟩
    · show min_length < max_length
      omega
    · show enforceLengths min_length max_length = ((min_length, max_length), false)
      rw [enforceLengths, if_neg h]

/-- C4: generation is attempted if and only if the trimmed length exceeds
50; at or below the threshold the handler returns the warning with the
session untouched and the result does not depend on the backend (no
generation call is observable); above it the warning branch is not taken;
40 trimmed characters are rejected while 51 proceed. -/
theorem C4_fifty_char_threshold (input_text : List Char) :
    (generationAttempted input_text = true ↔ 50 < (pyStrip input_text).length) ∧
    (∀ st summarizer tts max_length min_length audio_lang,
      (pyStrip input_text).length ≤ 50 →
      generateClick st summarizer tts input_text max_length min_length audio_lang
        = (st, .warnShort)) ∧
    (∀ st summarizer tts max_length min_length audio_lang,
      50 < (pyStrip input_text).length →
      (generateClick st summarizer tts input_text max_length min_length audio_lang).2
        ≠ ClickOutcome.warnShort) ∧
    generationAttempted (List.replicate 40 'a') = false ∧
    generationAttempted (List.replicate 51 'a') = true := by
  refine ⟨generationAttempted_iff input_text, ?_, ?_, by decide, by decide⟩
  · intro st summarizer tts max_length min_length audio_lang hle
    have hfalse : generationAttempted input_text = false := by
      rw [Bool.eq_false_iff]
      intro htrue
      exact absurd ((generationAttempted_iff input_text).mp htrue) (by omega)
    simp [generateClick, hfalse]
  · intro st summarizer tts max_length min_length audio_lang hgt
    have htrue : generationAttempted input_text = true :=
      (generationAttempted_iff input_text).mpr hgt
    simp only [generateClick, htrue, if_true]
    cases summarizer (summarizerCall input_text max_length min_length) with
    | error e => simp
    | ok s => simp

/-- C10: the input-length boundary is exactly 1024 characters — the text
handed to generation is always the first 1024 characters, an input of at
most 1024 characters is passed whole, the discarded part is exactly the
drop beyond 1024, and the original word count used by the statistics block
is computed from the full untruncated input. -/
theorem C10_boundary_1024 (input_text : List Char) :
    processed_text input_text = input_text.take 1024 ∧
    (input_text.length ≤ 1024 → processed_text input_text = input_text) ∧
    processed_text input_text ++ input_text.drop 1024 = input_text ∧
    (∀ summary ow sw c,
      statsBlock (some summary) input_text = .stats ow sw c →
      ow = wordCount input_text) := by
  have htake : processed_text input_text = input_text.take 1024 := by
    unfold processed_text
    by_cases h : input_text.length > 1024
    · rw [if_pos h]
    · rw [if_neg h, List.take_of_length_le (by omega : input_text.length ≤ 1024)]
  refine ⟨htake, fun hle => ?_, ?_, ?_⟩
  · rw [htake]
    exact List.take_of_length_le hle
  · rw [htake]
    exact List.take_append_drop 1024 input_text
  · intro summary ow sw c h
    revert h
    unfold statsBlock
    dsimp only
    split_ifs <;> intro h
    · exact h.elim
    · exact h.elim
    · exact h.elim
    · injection h with e1 e2 e3
      exact e1.symm

/-- C8: the neural generation call passes max_length and min_length as the
generation bounds and sets do_sample to false, so the pipeline, whose output
can depend on a random draw only when sampling is requested, yields the same
summary on two runs over identical input text and config. -/
theorem C8_deterministic_generation (input_text : List Char) (max_length min_length : ℤ)
    (decode : GenerationCall → List Char) (sample : GenerationCall → Nat → List Char)
    (d1 d2 : Nat) :
    (summarizerCall input_text max_length min_length).do_sample = false ∧
    (summarizerCall input_text max_length min_length).max_length = max_length ∧
    (summarizerCall input_text max_length min_length).min_length = min_length ∧
    runPipeline decode sample (summarizerCall input_text max_length min_length) d1
      = runPipeline decode sample (summarizerCall input_text max_length min_length) d2 := by
  refine ⟨rfl, rfl, rfl, ?_⟩
  simp [runPipeline, summarizerCall]

/-- C1 counterexample: on a 1025-character document the chunking step is not
loss-free — the concatenation of the produced chunks is not the original
text (the 1025th character is discarded). -/
theorem C1_counterexample :
    (chunks (List.replicate 1025 'a')).flatten ≠ List.replicate 1025 'a' := by
  intro h
  have hl := congrArg List.length h
  rw [chunks] at hl
  simp only [List.flatten_cons, List.flatten_nil, List.append_nil, List.length_take, List.length_replicate,
    processed_text] at hl
  norm_num at hl

/-- C1 amended: the chunking step never splits — it always returns a single
chunk holding the first 1024 characters of the text (the whole text when its
length is at most 1024); the concatenation of the chunks equals the original
text exactly when the text fits in 1024 characters, and loses the tail
beyond 1024 characters otherwise. -/
theorem C1_single_truncated_chunk (text : List Char) :
    chunks text = [text.take 1024] ∧
    (text.length ≤ 1024 → (chunks text).flatten = text) ∧
    (1024 < text.length → (chunks text).flatten ≠ text) := by
  have htake : processed_text text = text.take 1024 := by
    unfold processed_text
    by_cases h : text.length > 1024
    · rw [if_pos h]
    · rw [if_neg h, List.take_of_length_le (by omega : text.length ≤ 1024)]
  have hjoin : (chunks text).flatten = text.take 1024 := by
    rw [chunks, htake]
    simp only [List.flatten_cons, List.flatten_nil, List.append_nil]
  refine ⟨by rw [chunks, htake], fun hle => ?_, fun hgt => ?_⟩
  · rw [hjoin]
    exact List.take_of_length_le hle
  · rw [hjoin]
    intro heq
    have hl := congrArg List.length heq
    rw [List.length_take] at hl
    omega

/-- C2 counterexample: with a summary on display, a non-empty whitespace-only
input reaches the division by zero (Python raises ZeroDivisionError) instead
of returning 0.0, and on the empty input the statistics block is skipped
entirely rather than returning a 0.0 compression value. -/
theorem C2_counterexample :
    statsBlock (some [ 'o', 'k']) [ ' '] = StatsOutcome.zeroDivision ∧
    statsBlock (some [ 'o', 'k']) [] = StatsOutcome.skipped := by
  constructor <;> rfl

/-- C2 amended: statistics are computed only when both the stored summary
and the input text are non-empty; then, when the original whitespace-token
count is positive, the compression equals
(1 - summary_word_count / original_word_count) * 100 as the claim states,
but when the original word count is zero (non-empty, whitespace-only input)
the division by zero is reached instead of returning 0.0, and on an empty
input no statistic is computed at all. -/
theorem C2_compression_formula (summary input_text : List Char) :
    (summary ≠ [] ∧ input_text ≠ [] ∧ 0 < wordCount input_text →
      statsBlock (some summary) input_text
        = StatsOutcome.stats (wordCount input_text) (wordCount summary)
            ((1 - (wordCount summary : ℚ) / (wordCount input_text : ℚ)) * 100)) ∧
    (summary ≠ [] ∧ input_text ≠ [] ∧ wordCount input_text = 0 →
      statsBlock (some summary) input_text = StatsOutcome.zeroDivision) ∧
    (summary ≠ [] ∧ input_text = [] →
      statsBlock (some summary) input_text = StatsOutcome.skipped) := by
  refine ⟨fun ⟨hs, hi, hw⟩ => ?_, fun ⟨hs, hi, hw⟩ => ?_, fun ⟨hs, hi⟩ => ?_⟩
  · have hs2 : summary.isEmpty = false := by simpa using hs
    have hi2 : input_text.isEmpty = false := by simpa using hi
    unfold statsBlock
    dsimp only
    rw [hs2, hi2]
    simp only [Bool.false_eq_true, if_false, if_neg (by omega : ¬ wordCount input_text = 0)]
    have hcast : (wordCount input_text : ℚ) ≠ 0 := by
      exact_mod_cast (by omega : wordCount input_text ≠ 0)
    congr 1
    field_simp
  · have hs2 : summary.isEmpty = false := by simpa using hs
    have hi2 : input_text.isEmpty = false := by simpa using hi
    unfold statsBlock
    dsimp only
    rw [hs2, hi2]
    simp [hw]
  · have hs2 : summary.isEmpty = false := by simpa using hs
    unfold statsBlock
    dsimp only
    rw [hs2, hi]
    simp

/-- C3 counterexample: a document starting with a space whose trimmed length
is 51 passes the guard, yet the text handed to the generation call is the
raw untrimmed input, not the trimmed text. -/
theorem C3_counterexample :
    generationAttempted ( ' ' :: List.replicate 51 'a') = true ∧
    (summarizerCall ( ' ' :: List.replicate 51 'a') 150 50).text
      ≠ pyStrip ( ' ' :: List.replicate 51 'a') := by
  constructor
  · decide
  · decide

/-- C3 amended: trimming is applied only inside the length guard; the text
handed to the generation call is the raw input truncated to its first 1024
characters, with leading and trailing whitespace preserved (an input of at
most 1024 characters is handed over verbatim). -/
theorem C3_generation_input_untrimmed (input_text : List Char)
    (max_length min_length : ℤ) :
    (summarizerCall input_text max_length min_length).text = input_text.take 1024 ∧
    (input_text.length ≤ 1024 →
      (summarizerCall input_text max_length min_length).text = input_text) ∧
    generationAttempted input_text
      = (!input_text.isEmpty && decide (50 < (pyStrip input_text).length)) := by
  have htake : (summarizerCall input_text max_length min_length).text
      = input_text.take 1024 := by
    show processed_text input_text = input_text.take 1024
    unfold processed_text
    by_cases h : input_text.length > 1024
    · rw [if_pos h]
    · rw [if_neg h, List.take_of_length_le (by omega : input_text.length ≤ 1024)]
  refine ⟨htake, fun hle => ?_, rfl⟩
  rw [htake]
  exact List.take_of_length_le hle

/-- C6: when the summarization backend raises, the try/except at the stage
boundary catches the error and converts it to a user-visible message; the
handler returns normally (no abort) and the session state — in particular
any prior summary — is returned untouched. -/
theorem C6_generation_failure_state_unchanged (st : SessionState)
    (summarizer : GenerationCall → Except (List Char) (List Char))
    (tts : List Char → List Char → Except (List Char) (List Nat))
    (input_text : List Char) (max_length min_length : ℤ) (audio_lang e : List Char)
    (hgo : generationAttempted input_text = true)
    (herr : summarizer (summarizerCall input_text max_length min_length)
      = Except.error e) :
    generateClick st summarizer tts input_text max_length min_length audio_lang
      = (st, ClickOutcome.errorMsg e) := by
  unfold generateClick
  rw [if_pos hgo, herr]

/-- C6 witness: a concrete session with a prior summary and audio, a backend
that raises; the handler reports the error and leaves the state as it was. -/
theorem C6_generation_failure_state_unchanged_witness :
    generateClick ⟨some [ 'o'], some [1]⟩ (fun _ => Except.error [ 'b'])
        (fun _ _ => Except.ok [9]) (List.replicate 60 'a') 150 50 [ 'e', 'n']
      = (⟨some [ 'o'], some [1]⟩, ClickOutcome.errorMsg [ 'b']) :=
  C6_generation_failure_state_unchanged ⟨some [ 'o'], some [1]⟩
    (fun _ => Except.error [ 'b']) (fun _ _ => Except.ok [9])
    (List.replicate 60 'a') 150 50 [ 'e', 'n'] [ 'b'] (by decide) rfl

/-- C7: when generation succeeds and the audio-synthesis step fails,
text_to_speech catches the failure and returns None instead of raising, the
newly produced summary is stored in the session, the handler completes
normally, and no audio is stored for it (the audio field receives nothing
new). -/
theorem C7_synthesis_failure_summary_stands (st : SessionState)
    (summarizer : GenerationCall → Except (List Char) (List Char))
    (tts : List Char → List Char → Except (List Char) (List Nat))
    (input_text : List Char) (max_length min_length : ℤ)
    (audio_lang s err : List Char)
    (hgo : generationAttempted input_text = true)
    (hok : summarizer (summarizerCall input_text max_length min_length)
      = Except.ok s)
    (hfail : tts s audio_lang = Except.error err) :
    text_to_speech tts s audio_lang = none ∧
    generateClick st summarizer tts input_text max_length min_length audio_lang
      = ({ st with summary := some s }, ClickOutcome.generated) := by
  have hnone : text_to_speech tts s audio_lang = none := by
    unfold text_to_speech
    rw [hfail]
  refine ⟨hnone, ?_⟩
  unfold generateClick
  rw [if_pos hgo, hok]
  dsimp only
  rw [hnone]

/-- C7 witness: a concrete run where the backend succeeds and gTTS raises;
the new summary is stored, the failure is absorbed, only audio is omitted. -/
theorem C7_synthesis_failure_summary_stands_witness :
    text_to_speech (fun _ _ => Except.error [ 'x']) [ 'n'] [ 'e', 'n'] = none ∧
    generateClick ⟨none, none⟩ (fun _ => Except.ok [ 'n'])
        (fun _ _ => Except.error [ 'x']) (List.replicate 60 'a') 150 50 [ 'e', 'n']
      = (⟨some [ 'n'], none⟩, ClickOutcome.generated) :=
  C7_synthesis_failure_summary_stands ⟨none, none⟩ (fun _ => Except.ok [ 'n'])
    (fun _ _ => Except.error [ 'x']) (List.replicate 60 'a') 150 50 [ 'e', 'n']
    [ 'n'] [ 'x'] (by decide) rfl rfl

/-- C9: when a new summary is generated successfully and the audio-synthesis
step then fails, the session's audio bytes keep their previous value while
the summary is replaced by the new one — so the session can end up holding
audio belonging to an earlier summary than the stored one. -/
theorem C9_stale_audio_retained (st : SessionState)
    (summarizer : GenerationCall → Except (List Char) (List Char))
    (tts : List Char → List Char → Except (List Char) (List Nat))
    (input_text : List Char) (max_length min_length : ℤ)
    (audio_lang s err : List Char)
    (hgo : generationAttempted input_text = true)
    (hok : summarizer (summarizerCall input_text max_length min_length)
      = Except.ok s)
    (hfail : tts s audio_lang = Except.error err) :
    (generateClick st summarizer tts input_text max_length min_length
      audio_lang).1.audio_bytes = st.audio_bytes ∧
    (generateClick st summarizer tts input_text max_length min_length
      audio_lang).1.summary = some s := by
  have hnone : text_to_speech tts s audio_lang = none := by
    unfold text_to_speech
    rw [hfail]
  unfold generateClick
  rw [if_pos hgo, hok]
  dsimp only
  rw [hnone]
  exact ⟨rfl, rfl⟩

/-- C9 witness: a session holding the audio of an earlier summary; the new
summary replaces the old one but the stale audio bytes survive, so the
stored audio no longer corresponds to the stored summary. -/
theorem C9_stale_audio_retained_witness :
    (generateClick ⟨some [ 'o'], some [7]⟩ (fun _ => Except.ok [ 'n'])
        (fun _ _ => Except.error [ 'x']) (List.replicate 60 'a') 150 50
        [ 'e', 'n']).1.audio_bytes = some [7] ∧
    (generateClick ⟨some [ 'o'], some [7]⟩ (fun _ => Except.ok [ 'n'])
        (fun _ _ => Except.error [ 'x']) (List.replicate 60 'a') 150 50
        [ 'e', 'n']).1.summary = some [ 'n'] :=
  C9_stale_audio_retained ⟨some [ 'o'], some [7]⟩ (fun _ => Except.ok [ 'n'])
    (fun _ _ => Except.error [ 'x']) (List.replicate 60 'a') 150 50 [ 'e', 'n']
    [ 'n'] [ 'x'] (by decide) rfl rfl

end DocSummarizer
